import Mathlib

/-!
Shallow embedding of the booking conflict and availability engine of the
hotel-management backend.

Dates are modelled as integers: the millisecond timestamps produced by the
JavaScript `Date.getTime()` calls that every comparison in the source is
ultimately performed on.  Booleans mirror the JavaScript conditions verbatim.

The sources embedded here:
- `src/utils/dateUtils.js` (`datesOverlap`),
- `src/controllers/bookingController.js` (`createBooking`, `cancelBooking`)
  together with the Booking schema it persists through,
- the Room model (`isAvailableForDates`),
- the SQL trigger `update_room_availability_on_booking_change` of the
  Supabase variant.
-/

namespace HotelApp

/-- Milliseconds in one day: the `1000 * 60 * 60 * 24` divisor of the source. -/
def msPerDay : Int := 86400000

/-- Booking status enumeration from the Booking schema:
`['confirmed', 'cancelled', 'completed']`. -/
inductive BookingStatus
  | confirmed
  | cancelled
  | completed
deriving DecidableEq, Repr

/-- Payment status enumeration from the Booking schema:
`['pending', 'completed', 'failed', 'refunded']`. -/
inductive PaymentStatus
  | pending
  | completed
  | failed
  | refunded
deriving DecidableEq, Repr

/-- Requester role, as consulted by `req.user.role !== 'admin'`. -/
inductive Role
  | user
  | admin
deriving DecidableEq, Repr

/-- A booking document (the fields of the Booking schema that the engine
reads or writes). -/
structure Booking where
  id : Nat
  userId : Nat
  roomId : Nat
  startDate : Int
  endDate : Int
  numberOfGuests : Nat
  status : BookingStatus
  paymentStatus : PaymentStatus
  totalPrice : Int
deriving DecidableEq, Repr

/-- A room document (the fields of the Room schema that the engine reads). -/
structure Room where
  id : Nat
  pricePerNight : Int
  maxGuests : Nat
  isAvailable : Bool
deriving DecidableEq, Repr

/-- The `datesOverlap` helper of `src/utils/dateUtils.js`:
`start1 <= end2 && start2 <= end1` on the timestamps. -/
def datesOverlap (start1 end1 start2 end2 : Int) : Bool :=
  decide (start1 ≤ end2) && decide (start2 ≤ end1)

/-- Half-open interval intersection of two ranges,
`a.start < b.end AND b.start < a.end`. -/
def rangesOverlap (s1 e1 s2 e2 : Int) : Prop :=
  s1 < e2 ∧ s2 < e1

instance (s1 e1 s2 e2 : Int) : Decidable (rangesOverlap s1 e1 s2 e2) := by
  unfold rangesOverlap; infer_instance

/-- The `$or` condition of the conflict query in
`bookingController.createBooking` (lines 53-66), evaluated on one stored
booking against the candidate `[s, e)`:
`(startDate <= s && endDate > s) || (startDate < e && endDate >= e) ||
(startDate >= s && endDate <= e)`. -/
def conflictClause (b : Booking) (s e : Int) : Bool :=
  (decide (b.startDate ≤ s) && decide (b.endDate > s)) ||
  (decide (b.startDate < e) && decide (b.endDate ≥ e)) ||
  (decide (b.startDate ≥ s) && decide (b.endDate ≤ e))

/-- The `Booking.findOne` conflict query of `bookingController.createBooking`
(lines 50-67): some booking of the room with status `'confirmed'` satisfies
the `$or` clauses. -/
def hasOverlappingBooking (store : List Booking) (roomId : Nat) (s e : Int) : Bool :=
  store.any fun b =>
    decide (b.roomId = roomId) && decide (b.status = BookingStatus.confirmed) &&
      conflictClause b s e

/-- JavaScript `Math.ceil(a / b)` for an integer numerator and a positive
integer denominator: the ceiling of the rational quotient. -/
def jsCeilDiv (a b : Int) : Int :=
  -((-a) / b)

/-- The night count of `bookingController.createBooking` line 77:
`Math.ceil((end - start) / (1000 * 60 * 60 * 24))`. -/
def nightsBetween (s e : Int) : Int :=
  jsCeilDiv (e - s) msPerDay

/-- The distinct failure responses of `bookingController.createBooking`,
in source order, plus the Booking-schema rejection raised by
`Booking.create`. -/
inductive CreateError
  | startInPast
  | endNotAfterStart
  | roomNotFoundOrUnavailable
  | capacityExceeded
  | roomNotAvailableForDates
  | validationFailed
deriving DecidableEq, Repr

/-- The request body consumed by `createBooking`:
`{ roomId, startDate, endDate, numberOfGuests }`. -/
structure CreateRequest where
  roomId : Nat
  startDate : Int
  endDate : Int
  numberOfGuests : Nat
deriving DecidableEq, Repr

/-- The document handed to `Booking.create` (lines 81-90): dates and guest
count from the request, `totalPrice = nights * room.pricePerNight`, and the
schema defaults `status: 'confirmed'`, `paymentStatus: 'pending'`. -/
def mkBooking (userId : Nat) (req : CreateRequest) (room : Room) (newId : Nat) : Booking :=
  { id := newId
    userId := userId
    roomId := req.roomId
    startDate := req.startDate
    endDate := req.endDate
    numberOfGuests := req.numberOfGuests
    status := BookingStatus.confirmed
    paymentStatus := PaymentStatus.pending
    totalPrice := nightsBetween req.startDate req.endDate * room.pricePerNight }

/-- The Booking-schema validators that `Booking.create` runs before
inserting: `startDate >= now`, `endDate > startDate`,
`totalPrice >= 0`, `numberOfGuests >= 1`. -/
def bookingSchemaValid (now : Int) (b : Booking) : Bool :=
  decide (b.startDate ≥ now) && decide (b.endDate > b.startDate) &&
    decide (b.totalPrice ≥ 0) && decide (b.numberOfGuests ≥ 1)

/-- Every check `bookingController.createBooking` performs before its
`Booking.create` call, against the booking store visible at the time of the
`Booking.findOne` conflict query (the last read before the insert). -/
def passesCreateChecks (now : Int) (room : Room) (store : List Booking)
    (req : CreateRequest) : Bool :=
  !(decide (req.startDate < now)) &&
  !(decide (req.endDate ≤ req.startDate)) &&
  (decide (room.id = req.roomId) && room.isAvailable) &&
  !(decide (req.numberOfGuests > room.maxGuests)) &&
  !(hasOverlappingBooking store req.roomId req.startDate req.endDate)

/-- `bookingController.createBooking` (lines 9-106), with `room` the result
of `Room.findById(req.roomId)` (an id mismatch models the room being
absent), `store` the booking collection, and `newId` the id assigned to the
inserted document.  Returns the created booking and the updated store, or
the first failing check's error. -/
def createBooking (now : Int) (room : Room) (store : List Booking)
    (userId : Nat) (req : CreateRequest) (newId : Nat) :
    Except CreateError (Booking × List Booking) :=
  if req.startDate < now then .error .startInPast
  else if req.endDate ≤ req.startDate then .error .endNotAfterStart
  else if ¬(room.id = req.roomId ∧ room.isAvailable = true) then
    .error .roomNotFoundOrUnavailable
  else if req.numberOfGuests > room.maxGuests then .error .capacityExceeded
  else if hasOverlappingBooking store req.roomId req.startDate req.endDate then
    .error .roomNotAvailableForDates
  else if bookingSchemaValid now (mkBooking userId req room newId) then
    .ok (mkBooking userId req room newId, mkBooking userId req room newId :: store)
  else .error .validationFailed

/-- The distinct failure responses of `bookingController.cancelBooking`, in
source order.  `alreadyStarted` is the 400 response
`'Cannot cancel booking that has already started'`, the code's rendering of
the spec's `TooLateToCancel`. -/
inductive CancelError
  | notFound
  | forbidden
  | alreadyCancelled
  | completedBooking
  | alreadyStarted
deriving DecidableEq, Repr

/-- The mutation a successful cancellation applies to the stored document
(lines 254-255): `status = 'cancelled'; paymentStatus = 'refunded'`. -/
def cancelUpdate (bookingId : Nat) (b : Booking) : Booking :=
  if b.id = bookingId then
    { b with status := BookingStatus.cancelled, paymentStatus := PaymentStatus.refunded }
  else b

/-- `bookingController.cancelBooking` (lines 212-278): look the booking up,
check ownership or admin role, reject already-cancelled and completed
bookings, reject `startDate <= now`, and otherwise persist the status and
payment-status mutation.  Returns the updated store. -/
def cancelBooking (now : Int) (store : List Booking)
    (bookingId requesterId : Nat) (role : Role) :
    Except CancelError (List Booking) :=
  match store.find? (fun b => b.id == bookingId) with
  | none => .error .notFound
  | some b =>
    if b.userId ≠ requesterId ∧ role ≠ Role.admin then .error .forbidden
    else if b.status = BookingStatus.cancelled then .error .alreadyCancelled
    else if b.status = BookingStatus.completed then .error .completedBooking
    else if b.startDate ≤ now then .error .alreadyStarted
    else .ok (store.map (cancelUpdate bookingId))

/-- One client request against the booking store: a create attempt or a
cancel attempt, each carrying the wall-clock time at which it runs. -/
inductive Op
  | create (now : Int) (userId : Nat) (req : CreateRequest) (newId : Nat)
  | cancel (now : Int) (bookingId requesterId : Nat) (role : Role)

/-- Apply one operation to the booking store; a rejected request leaves the
store unchanged. -/
def applyOp (room : Room) (store : List Booking) : Op → List Booking
  | .create now userId req newId =>
    match createBooking now room store userId req newId with
    | .ok (_, store1) => store1
    | .error _ => store
  | .cancel now bookingId requesterId role =>
    match cancelBooking now store bookingId requesterId role with
    | .ok store1 => store1
    | .error _ => store

/-- Run a sequence of operations against an initially empty booking store. -/
def runOps (room : Room) (ops : List Op) : List Booking :=
  ops.foldl (applyOp room) []

/-- No two live bookings of the same room have half-open-overlapping date
ranges: the no-double-booking property, stated pairwise over the store. -/
def noDoubleBooking (store : List Booking) : Prop :=
  store.Pairwise fun b1 b2 =>
    b1.roomId = b2.roomId → b1.status = BookingStatus.confirmed →
      b2.status = BookingStatus.confirmed →
        ¬ rangesOverlap b1.startDate b1.endDate b2.startDate b2.endDate

end HotelApp

namespace HotelApp

deriving instance DecidableEq for Except

instance (store : List Booking) : Decidable (noDoubleBooking store) := by
  unfold noDoubleBooking; infer_instance

/-- Symmetry of half-open range intersection. -/
lemma rangesOverlap_comm {s1 e1 s2 e2 : Int} :
    rangesOverlap s1 e1 s2 e2 ↔ rangesOverlap s2 e2 s1 e1 := by
  unfold rangesOverlap; exact And.comm

/-- On well-formed ranges, the three-clause `$or` of the conflict query is
exactly half-open intersection of the stored range with the candidate. -/
lemma conflictClause_iff {b : Booking} {s e : Int}
    (hb : b.startDate < b.endDate) (hse : s < e) :
    conflictClause b s e = true ↔ rangesOverlap b.startDate b.endDate s e := by
  unfold conflictClause rangesOverlap
  simp only [Bool.or_eq_true, Bool.and_eq_true, decide_eq_true_eq]
  omega

/-- The conflict query finds nothing exactly when no confirmed booking of
the room satisfies the `$or` clauses. -/
lemma hasOverlappingBooking_false_iff (store : List Booking) (roomId : Nat) (s e : Int) :
    hasOverlappingBooking store roomId s e = false ↔
      ∀ b ∈ store, b.roomId = roomId → b.status = BookingStatus.confirmed →
        conflictClause b s e = false := by
  unfold hasOverlappingBooking
  simp [List.any_eq_false]

/-- Inversion of a successful create: the booking is the constructed
document consed onto the store, the range was validated, and the conflict
query came back empty. -/
lemma createBooking_ok_elim {now : Int} {room : Room} {store : List Booking}
    {userId : Nat} {req : CreateRequest} {newId : Nat} {b : Booking}
    {store1 : List Booking}
    (h : createBooking now room store userId req newId = .ok (b, store1)) :
    b = mkBooking userId req room newId ∧ store1 = b :: store ∧
      req.startDate < req.endDate ∧
      hasOverlappingBooking store req.roomId req.startDate req.endDate = false := by
  unfold createBooking at h
  split_ifs at h with h1 h2 h3 h4 h5 h6
  have hb : b = mkBooking userId req room newId ∧
      store1 = mkBooking userId req room newId :: store := by
    have := Except.ok.inj h
    exact ⟨congrArg Prod.fst this.symm, congrArg Prod.snd this.symm⟩
  obtain ⟨hb1, hb2⟩ := hb
  subst hb1
  refine ⟨rfl, hb2, by omega, ?_⟩
  simpa using h5

/-- Inversion of a successful cancel: the resulting store is the original
store with the status and payment-status mutation applied at the target id. -/
lemma cancelBooking_ok_elim {now : Int} {store : List Booking}
    {bookingId requesterId : Nat} {role : Role} {store1 : List Booking}
    (h : cancelBooking now store bookingId requesterId role = .ok store1) :
    store1 = store.map (cancelUpdate bookingId) := by
  unfold cancelBooking at h
  split at h
  · exact absurd h (by simp)
  · split_ifs at h
    simp_all

lemma cancelUpdate_roomId (i : Nat) (b : Booking) :
    (cancelUpdate i b).roomId = b.roomId := by
  unfold cancelUpdate; split <;> rfl

lemma cancelUpdate_startDate (i : Nat) (b : Booking) :
    (cancelUpdate i b).startDate = b.startDate := by
  unfold cancelUpdate; split <;> rfl

lemma cancelUpdate_endDate (i : Nat) (b : Booking) :
    (cancelUpdate i b).endDate = b.endDate := by
  unfold cancelUpdate; split <;> rfl

lemma cancelUpdate_status_confirmed {i : Nat} {b : Booking}
    (h : (cancelUpdate i b).status = BookingStatus.confirmed) :
    b.status = BookingStatus.confirmed := by
  unfold cancelUpdate at h; split at h <;> simp_all

/-- Well-formedness maintained by the engine: stored ranges are valid and a
stored status is one the code can actually write (`'completed'` is never
assigned anywhere in the source). -/
def storeWF (store : List Booking) : Prop :=
  ∀ b ∈ store, b.startDate < b.endDate ∧
    (b.status = BookingStatus.confirmed ∨ b.status = BookingStatus.cancelled)

/-- Every operation preserves well-formedness and the no-double-booking
property. -/
lemma applyOp_preserves (room : Room) (store : List Booking) (op : Op)
    (hwf : storeWF store) (hnd : noDoubleBooking store) :
    storeWF (applyOp room store op) ∧ noDoubleBooking (applyOp room store op) := by
  cases op with
  | create now userId req newId =>
    simp only [applyOp]
    cases h : createBooking now room store userId req newId with
    | error e => exact ⟨hwf, hnd⟩
    | ok p =>
      obtain ⟨b, store1⟩ := p
      obtain ⟨hb, hst, hlt, hconf⟩ := createBooking_ok_elim h
      subst hst; subst hb
      show storeWF (mkBooking userId req room newId :: store) ∧
        noDoubleBooking (mkBooking userId req room newId :: store)
      constructor
      · intro x hx
        rcases List.mem_cons.mp hx with rfl | hx
        · exact ⟨by simpa [mkBooking] using hlt, Or.inl rfl⟩
        · exact hwf x hx
      · unfold noDoubleBooking at hnd ⊢
        refine List.Pairwise.cons ?_ hnd
        intro y hy hroom hcb hcy
        have hyr : y.roomId = req.roomId := by
          simpa [mkBooking] using hroom.symm
        have h1 := (hasOverlappingBooking_false_iff store req.roomId
          req.startDate req.endDate).mp hconf y hy hyr hcy
        have hyw := (hwf y hy).1
        intro hov
        have hov1 : rangesOverlap y.startDate y.endDate req.startDate req.endDate := by
          unfold rangesOverlap at hov ⊢
          simp only [mkBooking] at hov
          exact ⟨hov.2, hov.1⟩
        have h2 := (conflictClause_iff hyw hlt).mpr hov1
        rw [h1] at h2
        cases h2
  | cancel now bookingId requesterId role =>
    simp only [applyOp]
    cases h : cancelBooking now store bookingId requesterId role with
    | error e => exact ⟨hwf, hnd⟩
    | ok store1 =>
      have hst := cancelBooking_ok_elim h
      subst hst
      show storeWF (store.map (cancelUpdate bookingId)) ∧
        noDoubleBooking (store.map (cancelUpdate bookingId))
      constructor
      · intro x hx
        rw [List.mem_map] at hx
        obtain ⟨a, ha, rfl⟩ := hx
        obtain ⟨h1, h2⟩ := hwf a ha
        refine ⟨by rw [cancelUpdate_startDate, cancelUpdate_endDate]; exact h1, ?_⟩
        unfold cancelUpdate
        split
        · exact Or.inr rfl
        · exact h2
      · unfold noDoubleBooking at hnd ⊢
        rw [List.pairwise_map]
        refine hnd.imp ?_
        intro a b hR hroom hca hcb
        rw [cancelUpdate_roomId, cancelUpdate_roomId] at hroom
        rw [cancelUpdate_startDate, cancelUpdate_endDate,
          cancelUpdate_startDate, cancelUpdate_endDate]
        exact hR hroom (cancelUpdate_status_confirmed hca)
          (cancelUpdate_status_confirmed hcb)

/-- Every store reachable from the empty store is well-formed and free of
double bookings. -/
lemma runOps_inv (room : Room) (ops : List Op) :
    storeWF (runOps room ops) ∧ noDoubleBooking (runOps room ops) := by
  unfold runOps
  have main : ∀ (l : List Op) (store : List Booking), storeWF store →
      noDoubleBooking store →
      storeWF (l.foldl (applyOp room) store) ∧
        noDoubleBooking (l.foldl (applyOp room) store) := by
    intro l
    induction l with
    | nil => intro store h1 h2; exact ⟨h1, h2⟩
    | cons op rest ih =>
      intro store h1 h2
      simp only [List.foldl_cons]
      obtain ⟨h3, h4⟩ := applyOp_preserves room store op h1 h2
      exact ih _ h3 h4
  exact main ops [] (by intro b hb; cases hb) List.Pairwise.nil

/-- Claim C1: for any single room, after any sequence of create and cancel
operations (starting from an empty booking store), the set of live bookings
(status `'confirmed'`) on that room contains no two bookings whose date
ranges overlap under half-open semantics. -/
theorem noDoubleBooking_after_any_ops (room : Room) (ops : List Op) :
    noDoubleBooking (runOps room ops) :=
  (runOps_inv room ops).2

end HotelApp

namespace HotelApp

/-- State of the booking store with concurrent create requests in flight:
`pending` requests have not yet run their conflict check, `passed` requests
had their `Booking.findOne` conflict query return empty but have not yet
executed their `Booking.create` insert.  In the source these are two
separately awaited database operations with no transaction, per-room lock,
or overlap-rejecting unique constraint between them. -/
structure ConcState where
  store : List Booking
  pending : List (Nat × CreateRequest)
  passed : List (Nat × CreateRequest)
deriving DecidableEq, Repr

/-- Interleaving semantics of concurrent `createBooking` calls by one user
on one room: a `check` step runs the request-time validations and the
conflict query against the store as it is at that moment, and a `commit`
step runs `Booking.create` (schema validation plus unconditional insert)
for a request whose check passed earlier.  Nothing in the source re-runs
the conflict check inside the insert. -/
inductive ConcStep (room : Room) (now : Int) (userId : Nat) :
    ConcState → ConcState → Prop
  | check {store : List Booking} {pending passed : List (Nat × CreateRequest)}
      {i : Nat} {r : CreateRequest} :
      passesCreateChecks now room store r = true →
      ConcStep room now userId ⟨store, (i, r) :: pending, passed⟩
        ⟨store, pending, (i, r) :: passed⟩
  | commit {store : List Booking} {pending passed : List (Nat × CreateRequest)}
      {i : Nat} {r : CreateRequest} :
      bookingSchemaValid now (mkBooking userId r room i) = true →
      ConcStep room now userId ⟨store, pending, (i, r) :: passed⟩
        ⟨mkBooking userId r room i :: store, pending, passed⟩

/-- Sequential `createBooking` is exactly one `check` step followed
immediately by one `commit` step: it succeeds iff the request-time checks
pass against the store seen by the conflict query and the schema accepts
the document. -/
lemma createBooking_ok_iff_checks (now : Int) (room : Room) (store : List Booking)
    (userId : Nat) (req : CreateRequest) (newId : Nat) :
    (∃ b store1, createBooking now room store userId req newId = .ok (b, store1)) ↔
      (passesCreateChecks now room store req = true ∧
        bookingSchemaValid now (mkBooking userId req room newId) = true) := by
  unfold createBooking passesCreateChecks
  split_ifs with h1 h2 h3 h4 h5 h6 <;> simp_all

/-- Room used by the concrete race run. -/
def raceRoom : Room := { id := 1, pricePerNight := 100, maxGuests := 2, isAvailable := true }

/-- First racing request, for `[day 1, day 5)`. -/
def raceReqA : CreateRequest :=
  { roomId := 1, startDate := 1 * msPerDay, endDate := 5 * msPerDay, numberOfGuests := 1 }

/-- Second racing request, for the overlapping `[day 3, day 6)`. -/
def raceReqB : CreateRequest :=
  { roomId := 1, startDate := 3 * msPerDay, endDate := 6 * msPerDay, numberOfGuests := 1 }

/-- Claim C2: counter-evidence.  From an empty store, the interleaving
check A, check B, insert B, insert A is a run of the concurrency semantics
of `createBooking` in which both conflict checks pass (each against the
still-empty store) and both inserts then commit, leaving two confirmed
bookings with overlapping ranges on the same room.  The conflict check and
the booking insertion are not combined into an atomic unit, and a check
passed outside the insert is never re-verified inside it. -/
theorem check_then_act_race :
    ∃ s : ConcState,
      Relation.ReflTransGen (ConcStep raceRoom 0 7)
        ⟨[], [(1, raceReqA), (2, raceReqB)], []⟩ s ∧
      s.pending = [] ∧ s.passed = [] ∧ ¬ noDoubleBooking s.store := by
  refine ⟨⟨[mkBooking 7 raceReqA raceRoom 1, mkBooking 7 raceReqB raceRoom 2], [], []⟩,
    ?_, rfl, rfl, by decide⟩
  exact .head (.check (by decide))
    (.head (.check (by decide))
      (.head (.commit (by decide))
        (.head (.commit (by decide)) .refl)))

/-- Claim C3 counterexample: on the touching ranges `{1,5}` and `{5,9}` the
code's `datesOverlap` returns true, while the claimed half-open predicate
`a.start < b.end AND b.start < a.end` is false there. -/
theorem datesOverlap_touching_counterexample :
    datesOverlap 1 5 5 9 = true ∧ ¬ rangesOverlap 1 5 5 9 := by decide

/-- Claim C3 (amended): `datesOverlap` returns true iff
`a.start <= b.end AND b.start <= a.end` — closed-interval intersection, so
ranges that merely touch at an endpoint DO overlap; in particular it
returns true both on `{1,5}`,`{5,9}` and on `{1,5}`,`{4,9}`. -/
theorem datesOverlap_closed_iff :
    (∀ s1 e1 s2 e2 : Int, datesOverlap s1 e1 s2 e2 = true ↔ (s1 ≤ e2 ∧ s2 ≤ e1)) ∧
      datesOverlap 1 5 5 9 = true ∧ datesOverlap 1 5 4 9 = true := by
  refine ⟨?_, by decide, by decide⟩
  intro s1 e1 s2 e2
  unfold datesOverlap
  simp

/-- Midnight UTC on the given day of January 2024 (the JS `Date` parse of
the corresponding ISO date string), in milliseconds since the epoch. -/
def jan2024 (d : Int) : Int := 1704067200000 + (d - 1) * 86400000

/-- Room R of the scenario, with nightly rate 100. -/
def roomR4 : Room := { id := 4, pricePerNight := 100, maxGuests := 4, isAvailable := true }

/-- Scenario request for `[Jan 1, Jan 5)`. -/
def reqJan1to5 : CreateRequest :=
  { roomId := 4, startDate := jan2024 1, endDate := jan2024 5, numberOfGuests := 1 }

/-- Scenario request for `[Jan 3, Jan 6)`. -/
def reqJan3to6 : CreateRequest :=
  { roomId := 4, startDate := jan2024 3, endDate := jan2024 6, numberOfGuests := 1 }

/-- Scenario request for the adjacent `[Jan 5, Jan 8)`. -/
def reqJan5to8 : CreateRequest :=
  { roomId := 4, startDate := jan2024 5, endDate := jan2024 8, numberOfGuests := 1 }

/-- Booking A of the scenario. -/
def bkJan1to5 : Booking := mkBooking 7 reqJan1to5 roomR4 1

/-- The booking created by the third attempt of the scenario. -/
def bkJan5to8 : Booking := mkBooking 8 reqJan5to8 roomR4 3

/-- Claim C4: with booking A confirmed for `[Jan 1, Jan 5)` on room R of
nightly rate 100, a create attempt for `[Jan 3, Jan 6)` fails with the
room-unavailable-for-dates error, and a create attempt for the adjacent
`[Jan 5, Jan 8)` succeeds with total price `3 * 100 = 300`. -/
theorem booking_scenario_jan2024 :
    createBooking (jan2024 1) roomR4 [] 7 reqJan1to5 1 = .ok (bkJan1to5, [bkJan1to5]) ∧
      createBooking (jan2024 1) roomR4 [bkJan1to5] 8 reqJan3to6 2 =
        .error CreateError.roomNotAvailableForDates ∧
      createBooking (jan2024 1) roomR4 [bkJan1to5] 8 reqJan5to8 3 =
        .ok (bkJan5to8, [bkJan5to8, bkJan1to5]) ∧
      bkJan5to8.totalPrice = 300 := by
  refine ⟨by decide, by decide, by decide, by decide⟩

end HotelApp

namespace HotelApp

/-- The `$or` condition of the availability query in
`RoomSchema.methods.isAvailableForDates` (Room model, lines 79-86):
`(startDate <= end && endDate >= start) ||
(startDate >= start && startDate <= end) ||
(startDate <= start && endDate >= end)`. -/
def availabilityClause (b : Booking) (s e : Int) : Bool :=
  (decide (b.startDate ≤ e) && decide (b.endDate ≥ s)) ||
  (decide (b.startDate ≥ s) && decide (b.startDate ≤ e)) ||
  (decide (b.startDate ≤ s) && decide (b.endDate ≥ e))

/-- `RoomSchema.methods.isAvailableForDates` (Room model, lines 64-90):
false when the room's static flag is off, otherwise true exactly when the
query for confirmed bookings of the room matching the `$or` clauses finds
nothing.  A pure read over the booking store. -/
def isAvailableForDates (room : Room) (store : List Booking) (s e : Int) : Bool :=
  if room.isAvailable = false then false
  else
    (store.filter fun b =>
        decide (b.roomId = room.id) && decide (b.status = BookingStatus.confirmed) &&
          availabilityClause b s e).length == 0

/-- On a well-formed stored range and an ordered candidate, the three
clauses of the availability query collapse to closed-interval
intersection. -/
lemma availabilityClause_iff {b : Booking} {s e : Int}
    (hb : b.startDate ≤ b.endDate) (hse : s ≤ e) :
    availabilityClause b s e = true ↔ (b.startDate ≤ e ∧ s ≤ b.endDate) := by
  unfold availabilityClause
  simp only [Bool.or_eq_true, Bool.and_eq_true, decide_eq_true_eq]
  omega

/-- Room used by the availability counterexample. -/
def availRoom : Room := { id := 2, pricePerNight := 50, maxGuests := 2, isAvailable := true }

/-- A confirmed booking of that room for `[day 1, day 5)`. -/
def bkDays1to5 : Booking :=
  { id := 21, userId := 7, roomId := 2, startDate := 1 * msPerDay,
    endDate := 5 * msPerDay, numberOfGuests := 1,
    status := BookingStatus.confirmed, paymentStatus := PaymentStatus.pending,
    totalPrice := 200 }

/-- Claim C5 counterexample: the room's flag is true and its only live
booking `[day 1, day 5)` does not overlap the candidate `[day 5, day 9)`
under half-open semantics, yet `isAvailableForDates` returns false. -/
theorem isAvailableForDates_touching_counterexample :
    isAvailableForDates availRoom [bkDays1to5] (5 * msPerDay) (9 * msPerDay) = false ∧
      availRoom.isAvailable = true ∧
      ¬ ∃ b ∈ [bkDays1to5], b.roomId = availRoom.id ∧
          b.status = BookingStatus.confirmed ∧
          rangesOverlap b.startDate b.endDate (5 * msPerDay) (9 * msPerDay) := by
  decide

/-- Claim C5 (amended): for an ordered candidate range and well-formed
stored ranges, `isAvailableForDates` returns false iff the room's static
flag is off or some confirmed booking of the room meets the candidate
under closed-interval semantics (`b.start <= e AND s <= b.end`), so ranges
that merely touch at an endpoint do conflict.  The check performs no
writes. -/
theorem isAvailableForDates_false_iff (room : Room) (store : List Booking) (s e : Int)
    (hse : s ≤ e) (hwf : ∀ b ∈ store, b.startDate ≤ b.endDate) :
    isAvailableForDates room store s e = false ↔
      (room.isAvailable = false ∨
        ∃ b ∈ store, b.roomId = room.id ∧ b.status = BookingStatus.confirmed ∧
          b.startDate ≤ e ∧ s ≤ b.endDate) := by
  by_cases hflag : room.isAvailable = false
  · simp [isAvailableForDates, hflag]
  · have hpred : ∀ b ∈ store,
        ((decide (b.roomId = room.id) && decide (b.status = BookingStatus.confirmed) &&
          availabilityClause b s e) = true ↔
          (b.roomId = room.id ∧ b.status = BookingStatus.confirmed ∧
            b.startDate ≤ e ∧ s ≤ b.endDate)) := by
      intro b hb
      simp only [Bool.and_eq_true, decide_eq_true_eq]
      rw [availabilityClause_iff (hwf b hb) hse]
      tauto
    unfold isAvailableForDates
    rw [if_neg hflag]
    constructor
    · intro h
      refine Or.inr ?_
      have hne : (store.filter fun b =>
          decide (b.roomId = room.id) && decide (b.status = BookingStatus.confirmed) &&
            availabilityClause b s e) ≠ [] := by
        intro hnil
        rw [hnil] at h
        simp at h
      obtain ⟨b, hbmem⟩ := List.exists_mem_of_ne_nil _ hne
      have hbstore := List.mem_of_mem_filter hbmem
      have hbp := List.of_mem_filter hbmem
      exact ⟨b, hbstore, (hpred b hbstore).mp hbp⟩
    · intro h
      rcases h with h | ⟨b, hb, hP⟩
      · exact absurd h hflag
      · have hbf : b ∈ store.filter fun b =>
            decide (b.roomId = room.id) && decide (b.status = BookingStatus.confirmed) &&
              availabilityClause b s e :=
          List.mem_filter.mpr ⟨hb, (hpred b hb).mpr hP⟩
        have hne := List.ne_nil_of_mem hbf
        simp only [beq_eq_false_iff_ne, ne_eq, List.length_eq_zero]
        exact hne

/-- Claim C5 witness: the amended characterization applied to the
counterexample room and candidate, the ordering and well-formedness
hypotheses discharged concretely. -/
theorem isAvailableForDates_false_iff_witness :
    isAvailableForDates availRoom [bkDays1to5] (5 * msPerDay) (9 * msPerDay) = false :=
  (isAvailableForDates_false_iff availRoom [bkDays1to5] (5 * msPerDay) (9 * msPerDay)
    (by decide) (by decide)).mpr (by decide)

/-- A row of the Supabase `bookings` table as read by the availability
trigger. -/
structure SqlBooking where
  id : Nat
  room_id : Nat
  check_in : Int
  check_out : Int
  status : BookingStatus
deriving DecidableEq, Repr

/-- The `EXISTS` subquery of the cancel/delete branch of
`update_room_availability_on_booking_change`: another confirmed booking of
the same room whose range overlaps the range of the just-cancelled or
just-deleted booking `old` (`check_in < old.check_out AND
check_out > old.check_in`). -/
def overlapsCancelled (old b : SqlBooking) : Bool :=
  decide (b.room_id = old.room_id) && decide (b.status = BookingStatus.confirmed) &&
    decide (b.id ≠ old.id) && decide (b.check_in < old.check_out) &&
    decide (b.check_out > old.check_in)

/-- The cancel/delete branch of the trigger
`update_room_availability_on_booking_change` (schema file, lines 88-106):
if no other confirmed booking overlaps the range of the changed booking,
set the room's `is_available` flag to true; otherwise leave it as it was.
`table` is the bookings table after the change, `old` the changed row,
`avail` the room's current flag. -/
def roomAvailabilityAfterCancel (table : List SqlBooking) (old : SqlBooking)
    (avail : Bool) : Bool :=
  if !(table.any fun b => overlapsCancelled old b) then true else avail

/-- The cancelled row of the C6 counterexample, `[day 1, day 5)`. -/
def cancelledRow : SqlBooking :=
  { id := 1, room_id := 3, check_in := 1 * msPerDay, check_out := 5 * msPerDay,
    status := BookingStatus.cancelled }

/-- A still-live future booking of the same room, `[day 10, day 15)`. -/
def futureRow : SqlBooking :=
  { id := 2, room_id := 3, check_in := 10 * msPerDay, check_out := 15 * msPerDay,
    status := BookingStatus.confirmed }

/-- Claim C6 counterexample: at `now = 0`, after cancelling the booking
`[day 1, day 5)` the trigger sets the room's flag to true even though the
room still has the live, entirely future booking `[day 10, day 15)` — the
remaining booking does not overlap the cancelled booking's own range, and
the trigger consults nothing else (in particular, not the current date). -/
theorem roomAvailability_future_booking_counterexample :
    roomAvailabilityAfterCancel [cancelledRow, futureRow] cancelledRow false = true ∧
      futureRow.status = BookingStatus.confirmed ∧
      futureRow.room_id = cancelledRow.room_id ∧
      (0 : Int) ≤ futureRow.check_in := by
  decide

/-- Claim C6 (amended): after a cancel or delete the trigger leaves the
room's flag false iff the flag was already false and some other confirmed
booking of the room overlaps the cancelled booking's own date range; the
recomputation is a delta local to the changed booking, and the current
date and live bookings outside that range play no part. -/
theorem roomAvailabilityAfterCancel_false_iff (table : List SqlBooking)
    (old : SqlBooking) (avail : Bool) :
    roomAvailabilityAfterCancel table old avail = false ↔
      (avail = false ∧ ∃ b ∈ table, b.room_id = old.room_id ∧
        b.status = BookingStatus.confirmed ∧ b.id ≠ old.id ∧
        b.check_in < old.check_out ∧ old.check_in < b.check_out) := by
  have hany : ((table.any fun b => overlapsCancelled old b) = true ↔
      ∃ b ∈ table, b.room_id = old.room_id ∧
        b.status = BookingStatus.confirmed ∧ b.id ≠ old.id ∧
        b.check_in < old.check_out ∧ old.check_in < b.check_out) := by
    rw [List.any_eq_true]
    constructor
    · rintro ⟨b, hb, hp⟩
      refine ⟨b, hb, ?_⟩
      unfold overlapsCancelled at hp
      simp only [Bool.and_eq_true, decide_eq_true_eq] at hp
      tauto
    · rintro ⟨b, hb, hp⟩
      refine ⟨b, hb, ?_⟩
      unfold overlapsCancelled
      simp only [Bool.and_eq_true, decide_eq_true_eq]
      tauto
  unfold roomAvailabilityAfterCancel
  by_cases hc : (table.any fun b => overlapsCancelled old b) = true
  · rw [if_neg (by simp [hc])]
    constructor
    · intro h
      exact ⟨h, hany.mp hc⟩
    · rintro ⟨h, _⟩
      exact h
  · have hf : (table.any fun b => overlapsCancelled old b) = false :=
      Bool.eq_false_iff.mpr hc
    rw [if_pos (by simp [hf])]
    constructor
    · intro h
      exact Bool.noConfusion h
    · rintro ⟨h1, hex⟩
      exact absurd (hany.mpr hex) hc

end HotelApp

namespace HotelApp

/-- Reduction of `cancelBooking` once the lookup has hit. -/
lemma cancelBooking_find_some {now : Int} {store : List Booking}
    {bookingId requesterId : Nat} {role : Role} {b : Booking}
    (hfind : store.find? (fun x => x.id == bookingId) = some b) :
    cancelBooking now store bookingId requesterId role =
      (if b.userId ≠ requesterId ∧ role ≠ Role.admin then .error .forbidden
       else if b.status = BookingStatus.cancelled then .error .alreadyCancelled
       else if b.status = BookingStatus.completed then .error .completedBooking
       else if b.startDate ≤ now then .error .alreadyStarted
       else .ok (store.map (cancelUpdate bookingId))) := by
  unfold cancelBooking
  rw [hfind]

/-- Claim C7: on any store the engine can produce, a cancel attempt on an
existing booking (`find?` hit) by an authorized requester, when the booking
is not already cancelled, fails with the has-already-started error (the
code's `TooLateToCancel`) exactly when `startDate <= now`, and succeeds
exactly when `now < startDate`. -/
theorem cancel_window_iff (room : Room) (ops : List Op) (now : Int)
    (bookingId requesterId : Nat) (role : Role) (b : Booking)
    (hfind : (runOps room ops).find? (fun x => x.id == bookingId) = some b)
    (hauth : b.userId = requesterId ∨ role = Role.admin)
    (hnc : b.status ≠ BookingStatus.cancelled) :
    (cancelBooking now (runOps room ops) bookingId requesterId role =
        .error CancelError.alreadyStarted ↔ b.startDate ≤ now) ∧
      ((∃ store1, cancelBooking now (runOps room ops) bookingId requesterId role =
          .ok store1) ↔ now < b.startDate) := by
  have hmem := List.mem_of_find?_eq_some hfind
  have hwf := (runOps_inv room ops).1
  have hconf : b.status = BookingStatus.confirmed := by
    rcases (hwf b hmem).2 with h | h
    · exact h
    · exact absurd h hnc
  rw [cancelBooking_find_some hfind]
  have hforb : ¬(b.userId ≠ requesterId ∧ role ≠ Role.admin) := by tauto
  rw [if_neg hforb, if_neg (by simp [hconf]), if_neg (by simp [hconf])]
  by_cases hlt : b.startDate ≤ now
  · rw [if_pos hlt]
    refine ⟨by simp [hlt], ?_, ?_⟩
    · rintro ⟨store1, hc⟩
      exact Except.noConfusion hc
    · intro h
      omega
  · rw [if_neg hlt]
    refine ⟨⟨fun hc => Except.noConfusion hc, fun h => absurd h hlt⟩, ?_, ?_⟩
    · intro _
      omega
    · intro _
      exact ⟨_, rfl⟩

/-- Room used by the cancel-window witness run. -/
def cwRoom : Room := { id := 5, pricePerNight := 100, maxGuests := 2, isAvailable := true }

/-- A request for `[day 1, day 2)` issued at time 0. -/
def cwReq : CreateRequest :=
  { roomId := 5, startDate := 1 * msPerDay, endDate := 2 * msPerDay, numberOfGuests := 1 }

/-- A single create producing the booking the witness cancels. -/
def cwOps : List Op := [Op.create 0 7 cwReq 1]

/-- Claim C7 witness: cancelling when `now` equals the booking's start
fails with the has-already-started error, and cancelling one day earlier
succeeds. -/
theorem cancel_window_iff_witness :
    cancelBooking (1 * msPerDay) (runOps cwRoom cwOps) 1 7 Role.user =
        .error CancelError.alreadyStarted ∧
      ∃ store1, cancelBooking 0 (runOps cwRoom cwOps) 1 7 Role.user = .ok store1 := by
  constructor
  · exact (cancel_window_iff cwRoom cwOps (1 * msPerDay) 1 7 Role.user
      (mkBooking 7 cwReq cwRoom 1) (by decide) (by decide) (by decide)).1.mpr (by decide)
  · exact (cancel_window_iff cwRoom cwOps 0 1 7 Role.user
      (mkBooking 7 cwReq cwRoom 1) (by decide) (by decide) (by decide)).2.mpr (by decide)

/-- Whole-day night count: a range spanning exactly `d` days yields `d`. -/
lemma nightsBetween_whole_days (s : Int) (d : Nat) :
    nightsBetween s (s + d * msPerDay) = d := by
  unfold nightsBetween jsCeilDiv msPerDay
  rw [show s + (d : Int) * 86400000 - s = (d : Int) * 86400000 by ring]
  rw [show -((d : Int) * 86400000) = -(d : Int) * 86400000 by ring]
  rw [Int.mul_ediv_cancel _ (by norm_num)]
  ring_nf

/-- Claim C8: for a whole-day range of `d > 0` nights and a non-negative
nightly rate, the document built by the create operation carries total
price exactly `d * pricePerNight`. -/
theorem totalPrice_whole_day_nights (userId newId g : Nat) (room : Room)
    (s : Int) (d : Nat) (hd : 0 < d) (hr : 0 ≤ room.pricePerNight) :
    (mkBooking userId
        { roomId := room.id, startDate := s, endDate := s + d * msPerDay,
          numberOfGuests := g } room newId).totalPrice =
      d * room.pricePerNight := by
  simp only [mkBooking]
  rw [nightsBetween_whole_days]

/-- Claim C8 witness: the price of the range from 2024-01-01 to 2024-01-04
(timestamps `1704067200000` and `1704326400000`, three nights) at nightly
rate 100 is 300. -/
theorem totalPrice_whole_day_nights_witness :
    (mkBooking 7
        { roomId := 4, startDate := 1704067200000, endDate := 1704326400000,
          numberOfGuests := 1 } roomR4 9).totalPrice = 300 := by
  have h := totalPrice_whole_day_nights 7 9 1 roomR4 1704067200000 3
    (by decide) (by decide)
  norm_num [msPerDay, roomR4] at h ⊢
  exact h

/-- A positive range spans at least one night. -/
lemma nightsBetween_pos {s e : Int} (h : s < e) : 1 ≤ nightsBetween s e := by
  unfold nightsBetween jsCeilDiv msPerDay
  omega

/-- Room with a negative nightly rate, for the C9 counterexample. -/
def negRoom : Room := { id := 6, pricePerNight := -100, maxGuests := 2, isAvailable := true }

/-- A three-night request on that room. -/
def negReq : CreateRequest :=
  { roomId := 6, startDate := 0, endDate := 3 * msPerDay, numberOfGuests := 1 }

/-- Claim C9 counterexample: with nightly rate `-100` and three nights, the
price computation does not fail with any invalid-input error — it computes
the value `-300` — and the create operation's eventual failure is the
Booking schema's negative-total rejection at insert time, downstream of
the pricing. -/
theorem price_no_invalid_input_counterexample :
    (mkBooking 7 negReq negRoom 1).totalPrice = -300 ∧
      createBooking 0 negRoom [] 7 negReq 1 = .error CreateError.validationFailed := by
  decide

/-- Claim C9 (amended): the price computation itself never fails.  Inputs
with a nonpositive night count are rejected before pricing by the
end-after-start check, and a negative nightly rate flows through pricing
into a negative total that the Booking schema's nonnegativity validator
rejects when the insert runs. -/
theorem price_validation_upstream (now : Int) (room : Room) (store : List Booking)
    (userId : Nat) (req : CreateRequest) (newId : Nat) :
    (now ≤ req.startDate → req.endDate ≤ req.startDate →
      createBooking now room store userId req newId =
        .error CreateError.endNotAfterStart) ∧
      (room.pricePerNight < 0 →
        passesCreateChecks now room store req = true →
        createBooking now room store userId req newId =
          .error CreateError.validationFailed) := by
  constructor
  · intro h1 h2
    unfold createBooking
    rw [if_neg (by omega), if_pos h2]
  · intro hrate hpass
    unfold passesCreateChecks at hpass
    simp only [Bool.and_eq_true, Bool.not_eq_true', decide_eq_false_iff_not,
      decide_eq_true_eq] at hpass
    obtain ⟨⟨⟨⟨hp1, hp2⟩, hp3⟩, hp4⟩, hp5⟩ := hpass
    have hlt : req.startDate < req.endDate := by omega
    have hneg : (mkBooking userId req room newId).totalPrice < 0 := by
      have h1 := nightsBetween_pos hlt
      simp only [mkBooking]
      have := mul_neg_of_pos_of_neg (lt_of_lt_of_le Int.one_pos h1) hrate
      omega
    unfold createBooking
    rw [if_neg (by omega), if_neg (by omega), if_neg (by tauto),
      if_neg (by omega), if_neg (by simp [hp5]), if_neg ?_]
    intro hsv
    unfold bookingSchemaValid at hsv
    simp only [Bool.and_eq_true, decide_eq_true_eq] at hsv
    omega

/-- Claim C9 witness: the amended statement applied concretely — a
zero-night request is rejected by the range check, and a three-night
request on the negative-rate room is rejected by the schema validator. -/
theorem price_validation_upstream_witness :
    createBooking 0 negRoom [] 7
        { roomId := 6, startDate := 0, endDate := 0, numberOfGuests := 1 } 1 =
      .error CreateError.endNotAfterStart ∧
      createBooking 0 negRoom [] 7 negReq 1 = .error CreateError.validationFailed := by
  constructor
  · exact (price_validation_upstream 0 negRoom [] 7
      { roomId := 6, startDate := 0, endDate := 0, numberOfGuests := 1 } 1).1
      (by decide) (by decide)
  · exact (price_validation_upstream 0 negRoom [] 7 negReq 1).2
      (by decide) (by decide)

/-- A booking with its status set to `'cancelled'` and its payment status
set to `'refunded'`, all other fields untouched. -/
def markCancelledRefunded (b : Booking) : Booking :=
  { b with status := BookingStatus.cancelled, paymentStatus := PaymentStatus.refunded }

/-- Claim C10: a successful cancellation rewrites the store by applying
`cancelUpdate` at the target id — every booking with that id ends with
status `'cancelled'` AND `paymentStatus` `'refunded'`, and nothing else
changes. -/
theorem cancelBooking_sets_cancelled_and_refunded (now : Int) (store : List Booking)
    (bookingId requesterId : Nat) (role : Role) (store1 : List Booking)
    (h : cancelBooking now store bookingId requesterId role = .ok store1) :
    store1 = store.map (cancelUpdate bookingId) ∧
      ∀ b ∈ store, b.id = bookingId → markCancelledRefunded b ∈ store1 := by
  have h1 := cancelBooking_ok_elim h
  subst h1
  refine ⟨rfl, ?_⟩
  intro b hb hid
  rw [List.mem_map]
  exact ⟨b, hb, by simp [cancelUpdate, markCancelledRefunded, hid]⟩

/-- The booking the C10 witness cancels. -/
def bkToCancel : Booking :=
  { id := 1, userId := 7, roomId := 5, startDate := 1 * msPerDay,
    endDate := 2 * msPerDay, numberOfGuests := 1,
    status := BookingStatus.confirmed, paymentStatus := PaymentStatus.pending,
    totalPrice := 100 }

/-- Claim C10 witness: cancelling the concrete booking marks it both
cancelled and refunded. -/
theorem cancelBooking_sets_cancelled_and_refunded_witness :
    [markCancelledRefunded bkToCancel] = [bkToCancel].map (cancelUpdate 1) ∧
      ∀ b ∈ [bkToCancel], b.id = 1 →
        markCancelledRefunded b ∈ [markCancelledRefunded bkToCancel] :=
  cancelBooking_sets_cancelled_and_refunded 0 [bkToCancel] 1 7 Role.user
    [markCancelledRefunded bkToCancel] (by decide)

end HotelApp
